import Mathlib

/-
Verification of the exposure-time / photon-noise calculator (src/main.py).

The program is four pure floating-point functions plus an orchestration
routine `main` that resolves four optional command-line parameters and
chains the functions.  Floating-point values are idealized as real
numbers; the one fallible library call (`math.sqrt`, which raises
`ValueError` on a negative argument in CPython) is modeled with `Option`.
-/

namespace Etc

/-- Model of CPython's `math.sqrt`: returns the square root for a
non-negative argument and raises `ValueError` (modeled as `none`) for a
negative argument. -/
noncomputable def mathSqrt (x : ℝ) : Option ℝ :=
  if x < 0 then none else some (Real.sqrt x)

/-- `calculate_number_of_photons_per_pixel` from src/main.py:
`spectral_radiance * collecting_area * exposure_time`, where the
collecting area is taken equal to the square pixel size. -/
noncomputable def calculate_number_of_photons_per_pixel
    (square_pixel_size spectral_radiance exposure_time : ℝ) : ℝ :=
  let collecting_area := square_pixel_size
  spectral_radiance * collecting_area * exposure_time

/-- `calculate_square_pixel_size` from src/main.py:
`((focal_length * tan(angular_size)) * 1e6) ** 2`. -/
noncomputable def calculate_square_pixel_size
    (focal_length angular_size : ℝ) : ℝ :=
  ((focal_length * Real.tan angular_size) * 1e6) ^ 2

/-- `calculate_photon_noise` from src/main.py: `math.sqrt(number_of_photons)`.
The result is `none` exactly when `math.sqrt` raises `ValueError`. -/
noncomputable def calculate_photon_noise (number_of_photons : ℝ) : Option ℝ :=
  mathSqrt number_of_photons

/-- `calculate_min_photons_for_signal_to_noise_gt_5` from src/main.py:
`background_noise * signal_to_noise_ratio`. -/
noncomputable def calculate_min_photons_for_signal_to_noise_gt_5
    (background_noise snr : ℝ) : ℝ :=
  background_noise * snr

/-- The argument-resolution pattern `args.x if args.x else default` used in
`main` (src/main.py lines 97-107): an absent argument (`None`) and a falsy
supplied value (`0.0`) both fall back to the default. -/
noncomputable def resolveArg (arg : Option ℝ) (dflt : ℝ) : ℝ :=
  match arg with
  | none => dflt
  | some v => if v = 0 then dflt else v

/-- `main` from src/main.py.  Takes the four optional parsed arguments and
returns the three printed values (background photon count, photon noise,
minimum photons for SNR > 5), or `none` when `math.sqrt` raises. -/
noncomputable def mainCompute (sr_arg et_arg fl_arg sa_arg : Option ℝ) :
    Option (ℝ × ℝ × ℝ) :=
  let spectral_radiance := resolveArg sr_arg 1e-6
  let exposure_time := resolveArg et_arg 3600
  let focal_length := resolveArg fl_arg 120
  let sky_arcseconds := resolveArg sa_arg 0.106
  let angular_size := sky_arcseconds / ((3600 * 180) / Real.pi)
  let square_pixel_size := calculate_square_pixel_size focal_length angular_size
  let number_of_background_photons := calculate_number_of_photons_per_pixel
    square_pixel_size spectral_radiance exposure_time
  match calculate_photon_noise number_of_background_photons with
  | none => none
  | some photon_noise =>
    let total_number_of_background_photons :=
      number_of_background_photons + photon_noise
    let min_photons := calculate_min_photons_for_signal_to_noise_gt_5
      total_number_of_background_photons 5
    some (number_of_background_photons, photon_noise, min_photons)

/-- The orchestration pipeline as the spec words it (spec section 4.5):
angular size `sa / ((3600*180)/pi)`, area `(fl * tan(angle) * 1e6)^2`,
photon count `sr * area * et`, noise `sqrt(count)`, and minimum photons
`(count + noise) * 5`. -/
noncomputable def specPipeline (sr et fl sa : ℝ) : ℝ × ℝ × ℝ :=
  let ang := sa / ((3600 * 180) / Real.pi)
  let area := (fl * Real.tan ang * 1e6) ^ 2
  let photons := sr * area * et
  let noise := Real.sqrt photons
  (photons, noise, (photons + noise) * 5)

end Etc

namespace Etc

/-- Helper: `photon_noise` succeeds and returns `sqrt n` when `n ≥ 0`. -/
lemma photon_noise_nonneg_eq (n : ℝ) (h : 0 ≤ n) :
    calculate_photon_noise n = some (Real.sqrt n) := by
  unfold calculate_photon_noise mathSqrt
  rw [if_neg (not_lt.mpr h)]

/-- Claim C8: for all `s p t`, `photons_per_pixel(s, p, t)` is exactly the
product `s * p * t` (the collecting area is taken equal to the pixel size;
no internal unit conversion). -/
theorem C8_photons_product (s p t : ℝ) :
    calculate_number_of_photons_per_pixel s p t = s * p * t := by
  unfold calculate_number_of_photons_per_pixel
  ring

/-- Claim C9: for all `b r`, `min_photons_for_snr(b, r)` is exactly `b * r`;
the function is purely a multiplication of its two arguments. -/
theorem C9_min_photons_product (b r : ℝ) :
    calculate_min_photons_for_signal_to_noise_gt_5 b r = b * r := rfl

/-- Claim C7: for every focal length `f` and angular size `a`,
`square_pixel_size(f, a) = (f * tan(a) * 1e6)^2`, with no bounds checking
on the angle. -/
theorem C7_square_pixel_size_formula (f a : ℝ) :
    calculate_square_pixel_size f a = (f * Real.tan a * 1e6) ^ 2 := rfl

/-- Claim C10: for non-negative `a` and `b`, `square_pixel_size(a, b)` is
non-negative (it is a squared value). -/
theorem C10_square_pixel_size_nonneg (a b : ℝ) (h1 : 0 ≤ a) (h2 : 0 ≤ b) :
    0 ≤ calculate_square_pixel_size a b := by
  unfold calculate_square_pixel_size
  positivity

/-- Witness for C10 at the concrete input `(1, 1)`. -/
theorem C10_square_pixel_size_nonneg_witness :
    0 ≤ calculate_square_pixel_size 1 1 :=
  C10_square_pixel_size_nonneg 1 1 (by norm_num) (by norm_num)

/-- Claim C6: for every `n ≥ 0`, `photon_noise(n)` returns `sqrt(n)`, and
squaring that result recovers `n`. -/
theorem C6_photon_noise_sqrt (n : ℝ) (h : 0 ≤ n) :
    calculate_photon_noise n = some (Real.sqrt n) ∧ Real.sqrt n ^ 2 = n := by
  exact ⟨photon_noise_nonneg_eq n h, Real.sq_sqrt h⟩

/-- Witness for C6 at the concrete input `100`: `photon_noise(100) = 10`. -/
theorem C6_photon_noise_sqrt_witness :
    calculate_photon_noise 100 = some 10 ∧ Real.sqrt 100 ^ 2 = 100 := by
  have h := C6_photon_noise_sqrt 100 (by norm_num)
  have h10 : Real.sqrt 100 = 10 := by
    rw [show (100 : ℝ) = 10 ^ 2 by norm_num,
      Real.sqrt_sq (by norm_num : (0 : ℝ) ≤ 10)]
  exact ⟨by rw [h.1, h10], by rw [h10]; norm_num⟩

/-- Claim C2 counterexample: `photon_noise(-1)` does not return a value at
all (NaN or otherwise): `math.sqrt` raises `ValueError` on the negative
argument, modeled as `none`. -/
theorem C2_counterexample : calculate_photon_noise (-1) = none := by
  unfold calculate_photon_noise mathSqrt
  rw [if_pos (by norm_num : (-1 : ℝ) < 0)]

/-- Claim C2 (amended): for every `n < 0`, `photon_noise(n)` raises
`ValueError` (CPython `math.sqrt` domain error) instead of returning
`NaN`. -/
theorem C2_negative_raises (n : ℝ) (h : n < 0) :
    calculate_photon_noise n = none := by
  unfold calculate_photon_noise mathSqrt
  rw [if_pos h]

/-- Witness for the amended C2 at the concrete input `-2`. -/
theorem C2_negative_raises_witness : calculate_photon_noise (-2) = none :=
  C2_negative_raises (-2) (by norm_num)

/-- Claim C3 counterexample: supplying `0.0` for the spectral radiance does
not make the computation use the supplied value: the value actually used is
the default `1e-6`, which differs from `0`, and the whole run is
indistinguishable from the default run. -/
theorem C3_counterexample :
    resolveArg (some 0) 1e-6 = 1e-6 ∧ (1e-6 : ℝ) ≠ 0 ∧
      mainCompute (some 0) none none none = mainCompute none none none none := by
  refine ⟨by simp [resolveArg], by norm_num, ?_⟩
  simp [mainCompute, resolveArg]

/-- Claim C3 (amended): the default is used exactly when the parameter is
absent or supplied equal to `0`; a supplied nonzero value is the one
used. -/
theorem C3_amended_defaults (d v : ℝ) (hv : v ≠ 0) :
    resolveArg none d = d ∧ resolveArg (some 0) d = d ∧
      resolveArg (some v) d = v := by
  refine ⟨rfl, by simp [resolveArg], ?_⟩
  simp [resolveArg, hv]

/-- Witness for the amended C3 at the concrete inputs `d = 5`, `v = 7`. -/
theorem C3_amended_defaults_witness :
    resolveArg none 5 = 5 ∧ resolveArg (some 0) 5 = 5 ∧
      resolveArg (some 7) 5 = 7 :=
  C3_amended_defaults 5 7 (by norm_num)

/-- Claim C4: supplying `0.0` for any one of the four optional parameters
makes the orchestration routine behave exactly as if that parameter were
absent. -/
theorem C4_zero_behaves_as_absent (o1 o2 o3 o4 : Option ℝ) :
    mainCompute (some 0) o2 o3 o4 = mainCompute none o2 o3 o4 ∧
    mainCompute o1 (some 0) o3 o4 = mainCompute o1 none o3 o4 ∧
    mainCompute o1 o2 (some 0) o4 = mainCompute o1 o2 none o4 ∧
    mainCompute o1 o2 o3 (some 0) = mainCompute o1 o2 o3 none := by
  have hz : ∀ d : ℝ, resolveArg (some 0) d = resolveArg none d := by
    intro d
    simp [resolveArg]
  refine ⟨?_, ?_, ?_, ?_⟩ <;> simp only [mainCompute, hz]

/-- Claim C1: for every set of four arguments whose resolved photon count is
non-negative (so that the run completes), the orchestration routine returns
exactly the spec pipeline: angular size `sa / ((3600*180)/pi)`, pixel area
from the focal length and that angle, photon count from area, radiance and
exposure, noise as its square root, and minimum photons as the sum of count
and noise times the fixed ratio 5; the three printed values are the count,
the noise and that minimum. -/
theorem C1_main_pipeline (o1 o2 o3 o4 : Option ℝ)
    (h : 0 ≤ (specPipeline (resolveArg o1 1e-6) (resolveArg o2 3600)
      (resolveArg o3 120) (resolveArg o4 0.106)).1) :
    mainCompute o1 o2 o3 o4 =
      some (specPipeline (resolveArg o1 1e-6) (resolveArg o2 3600)
        (resolveArg o3 120) (resolveArg o4 0.106)) := by
  have hP : (0 : ℝ) ≤ calculate_number_of_photons_per_pixel
      (calculate_square_pixel_size (resolveArg o3 120)
        (resolveArg o4 0.106 / ((3600 * 180) / Real.pi)))
      (resolveArg o1 1e-6) (resolveArg o2 3600) := h
  simp only [mainCompute]
  rw [photon_noise_nonneg_eq _ hP]
  rfl

/-- Witness for C1 at the default run (all four arguments absent). -/
theorem C1_main_pipeline_witness :
    mainCompute none none none none =
      some (specPipeline (resolveArg none 1e-6) (resolveArg none 3600)
        (resolveArg none 120) (resolveArg none 0.106)) :=
  C1_main_pipeline none none none none (by
    show (0 : ℝ) ≤ 1e-6 *
      ((120 * Real.tan (0.106 / ((3600 * 180) / Real.pi))) * 1e6) ^ 2 * 3600
    positivity)

/-- Claim C5: the default run (all four parameters absent) raises no
exception and each of the three printed values is a well-defined,
non-negative real number. -/
theorem C5_default_run :
    ∃ p noise m, mainCompute none none none none = some (p, noise, m) ∧
      0 ≤ p ∧ 0 ≤ noise ∧ 0 ≤ m := by
  have hP : (0 : ℝ) ≤ calculate_number_of_photons_per_pixel
      (calculate_square_pixel_size 120 (0.106 / ((3600 * 180) / Real.pi)))
      1e-6 3600 := by
    unfold calculate_number_of_photons_per_pixel calculate_square_pixel_size
    positivity
  have hmain : mainCompute none none none none =
      some (calculate_number_of_photons_per_pixel
          (calculate_square_pixel_size 120 (0.106 / ((3600 * 180) / Real.pi)))
          1e-6 3600,
        Real.sqrt (calculate_number_of_photons_per_pixel
          (calculate_square_pixel_size 120 (0.106 / ((3600 * 180) / Real.pi)))
          1e-6 3600),
        calculate_min_photons_for_signal_to_noise_gt_5
          (calculate_number_of_photons_per_pixel
              (calculate_square_pixel_size 120
                (0.106 / ((3600 * 180) / Real.pi))) 1e-6 3600 +
            Real.sqrt (calculate_number_of_photons_per_pixel
              (calculate_square_pixel_size 120
                (0.106 / ((3600 * 180) / Real.pi))) 1e-6 3600)) 5) := by
    simp only [mainCompute, resolveArg]
    rw [photon_noise_nonneg_eq _ hP]
  exact ⟨_, _, _, hmain, hP, Real.sqrt_nonneg _, by
    unfold calculate_min_photons_for_signal_to_noise_gt_5
      calculate_number_of_photons_per_pixel calculate_square_pixel_size
    positivity⟩

end Etc
